import Mathlib

/-!
Shallow embedding of the s3uploader upload pipeline.

Sources embedded here:
- `src/database.py` : the work-queue store (`upload_to_s3` table), the ledger
  (`uploaded_s3` table), and the operations `fetch_pending_uploads`,
  `mark_as_failed`, `insert_into_uploaded_s3`, `delete_uploaded_record`.
- `src/s3_image_uploader.py` : `upload_image` (per-task worker protocol),
  the meltdown counter logic of `file_exists_in_s3` /
  `upload_file_to_s3_non_multipart`, and the `run_multithreaded` loop.
- `src/s3_client_wrapper.py` : `_refresh_s3_client` / `_create_s3_client`.
- `src/s3_upload_verifier.py` : `key_for_local_path`.

External effects (filesystem, S3 responses, thread results) are passed in as
explicit environment values; database tables are lists of rows; exceptions are
modelled as explicit outcome values.
-/

namespace S3Uploader

/-- Row of the pending-queue table `upload_to_s3` (fields `id`, `image_id`,
`acq_id`, `path`, `status`, `retry_count`, `last_error`). -/
structure QueueRow where
  id : Nat
  image_id : Int
  acq_id : Int
  path : String
  status : String
  retry_count : Nat
  last_error : Option String
  deriving Repr, DecidableEq

/-- Row of the completed-upload ledger table `uploaded_s3` (fields `image_id`,
`acq_id`, `path`, `object_key`, `bucket`). -/
structure LedgerRow where
  image_id : Int
  acq_id : Int
  path : String
  object_key : String
  bucket : String
  deriving Repr, DecidableEq

/-- State of the two database tables used by the uploader. -/
structure DBState where
  upload_to_s3 : List QueueRow
  uploaded_s3 : List LedgerRow
  deriving Repr, DecidableEq

/-- Embedding of `Database.fetch_pending_uploads`: the SQL is
`SELECT ... FROM upload_to_s3 WHERE retry_count < 5 LIMIT %s`; with no
ORDER BY we model it as taking up to `limit` rows of the table restricted to
`retry_count < 5`. -/
def fetch_pending_uploads (limit : Nat) (db : DBState) : List QueueRow :=
  (db.upload_to_s3.filter (fun row => row.retry_count < 5)).take limit

/-- Embedding of `Database.delete_uploaded_record`: `DELETE FROM upload_to_s3
WHERE id = %s`. -/
def delete_uploaded_record (upload_id : Nat) (db : DBState) : DBState :=
  { db with upload_to_s3 := db.upload_to_s3.filter (fun row => row.id != upload_id) }

/-- Embedding of `Database.mark_as_failed`: `UPDATE upload_to_s3 SET
status = 'failed', last_error = %s, retry_count = retry_count + 1
WHERE id = %s`. -/
def mark_as_failed (upload_id : Nat) (error_msg : String) (db : DBState) : DBState :=
  { db with upload_to_s3 := db.upload_to_s3.map (fun row =>
      if row.id = upload_id then
        { row with status := "failed", last_error := some error_msg,
                   retry_count := row.retry_count + 1 }
      else row) }

/-- Embedding of `Database.insert_into_uploaded_s3`: `INSERT INTO uploaded_s3
(image_id, acq_id, path, object_key, bucket) VALUES (%s, %s, %s, %s, %s)`. -/
def insert_into_uploaded_s3 (image_id acq_id : Int) (local_path s3_path bucket_name : String)
    (db : DBState) : DBState :=
  { db with uploaded_s3 := db.uploaded_s3 ++
      [{ image_id := image_id, acq_id := acq_id, path := local_path,
         object_key := s3_path, bucket := bucket_name }] }

/-- Python `str.lstrip` with the single character `/`: drop every leading
slash of the character list. -/
def stripLeadingSlashes : List Char → List Char
  | [] => []
  | c :: cs => if c = '/' then stripLeadingSlashes cs else c :: cs

/-- Destination-key derivation of `upload_image`
(`s3_path = local_path.lstrip('/')`, src/s3_image_uploader.py line 59). -/
def deriveKey (local_path : String) : String :=
  String.mk (stripLeadingSlashes local_path.data)

/-- Embedding of the auditing tool's `key_for_local_path`
(src/s3_upload_verifier.py: `return local_path.lstrip('/')`). -/
def key_for_local_path (local_path : String) : String :=
  String.mk (stripLeadingSlashes local_path.data)

/-- Bucket name hardcoded in `upload_image` (`bucket_name = 'mikro'`). -/
def BUCKET_NAME : String := "mikro"

/-- Error codes treated as meltdown-level in `file_exists_in_s3` and
`upload_file_to_s3_non_multipart`: `['503', 'RequestTimeout',
'ServiceUnavailable']`. -/
def meltdownCodes : List String := ["503", "RequestTimeout", "ServiceUnavailable"]

/-- Membership test `error_code in ['503', 'RequestTimeout', 'ServiceUnavailable']`. -/
def isMeltdownCode (code : String) : Bool :=
  meltdownCodes.contains code

/-- Result of the S3 `head_object` existence probe, as classified by
`file_exists_in_s3`: object present, a 404 (object absent), or a
`ClientError` with some other error code. -/
inductive ProbeResult where
  | found
  | notFound
  | clientError (code : String)
  deriving Repr, DecidableEq

/-- Result of the `put_object` transfer in `upload_file_to_s3_non_multipart`:
success or a `ClientError` with an error code. -/
inductive TransferResult where
  | ok
  | clientError (code : String)
  deriving Repr, DecidableEq

/-- External circumstances of one `upload_image` call: whether
`os.path.isfile(local_path)` holds, whether `get_fresh_s3_client` succeeds,
and the backend's responses to the probe and the transfer. -/
structure TaskEnv where
  fileExists : Bool
  clientOk : Bool
  probe : ProbeResult
  transfer : TransferResult
  deriving Repr, DecidableEq

/-- One pending-upload record as consumed by `upload_image`
(keys `id`, `image_id`, `acq_id`, `local_path` of the fetched row). -/
structure UploadTask where
  id : Nat
  image_id : Int
  acq_id : Int
  local_path : String
  deriving Repr, DecidableEq

/-- Outcome of one `upload_image` call: normal return after `mark_as_failed`
(soft failure), return after detecting the object already in S3, return after
a successful upload, or the `S3MeltdownError` exception propagating. -/
inductive Outcome where
  | softFailed
  | skippedExisting
  | succeeded
  | meltdown
  deriving Repr, DecidableEq

/-- Mutable state of `S3ImageUploader` visible to `upload_image`: the
database tables and `consecutive_meltdown_errors`. -/
structure UploaderState where
  db : DBState
  counter : Nat
  deriving Repr, DecidableEq

/-- Result of one `upload_image` call: the new uploader state, the outcome,
and whether `upload_file_to_s3` was invoked at all. -/
structure UploadResult where
  state : UploaderState
  outcome : Outcome
  transferAttempted : Bool
  deriving Repr, DecidableEq

/-- Error message built by `upload_image` when the local file is absent. -/
def fileMissingMsg (local_path : String) : String :=
  "Local file " ++ local_path ++ " does not exist."

/-- Embedding of `S3ImageUploader.upload_image` together with the meltdown
bookkeeping of `file_exists_in_s3` and `upload_file_to_s3_non_multipart`:

1. if the local file is missing, `mark_as_failed` and return;
2. obtain a client (`get_fresh_s3_client`); a failure there is caught by the
   generic handler, which calls `mark_as_failed`;
3. probe with `head_object`; a `found` answer deletes the row and returns;
   a meltdown-level error code increments `consecutive_meltdown_errors` and
   raises `S3MeltdownError` once the count reaches the threshold, otherwise
   the re-raised `ClientError` reaches the generic handler (`mark_as_failed`);
   any other code goes to the generic handler directly;
4. on `notFound`, transfer with `put_object` under the same meltdown logic;
5. on success, `insert_into_uploaded_s3`, then `delete_uploaded_record`,
   then reset the counter to zero. -/
def upload_image (threshold : Nat) (task : UploadTask) (env : TaskEnv)
    (st : UploaderState) : UploadResult :=
  let s3_path := deriveKey task.local_path
  if env.fileExists = false then
    { state := { st with db := mark_as_failed task.id (fileMissingMsg task.local_path) st.db },
      outcome := Outcome.softFailed, transferAttempted := false }
  else if env.clientOk = false then
    { state := { st with db := mark_as_failed task.id ("Failed to create S3 client") st.db },
      outcome := Outcome.softFailed, transferAttempted := false }
  else
    match env.probe with
    | ProbeResult.found =>
        { state := { st with db := delete_uploaded_record task.id st.db },
          outcome := Outcome.skippedExisting, transferAttempted := false }
    | ProbeResult.clientError code =>
        if isMeltdownCode code then
          if st.counter + 1 ≥ threshold then
            { state := { st with counter := st.counter + 1 },
              outcome := Outcome.meltdown, transferAttempted := false }
          else
            { state := { db := mark_as_failed task.id code st.db, counter := st.counter + 1 },
              outcome := Outcome.softFailed, transferAttempted := false }
        else
          { state := { st with db := mark_as_failed task.id code st.db },
            outcome := Outcome.softFailed, transferAttempted := false }
    | ProbeResult.notFound =>
        match env.transfer with
        | TransferResult.ok =>
            { state :=
                { db := delete_uploaded_record task.id
                    (insert_into_uploaded_s3 task.image_id task.acq_id
                      task.local_path s3_path BUCKET_NAME st.db),
                  counter := 0 },
              outcome := Outcome.succeeded, transferAttempted := true }
        | TransferResult.clientError code =>
            if isMeltdownCode code then
              if st.counter + 1 ≥ threshold then
                { state := { st with counter := st.counter + 1 },
                  outcome := Outcome.meltdown, transferAttempted := true }
              else
                { state := { db := mark_as_failed task.id code st.db, counter := st.counter + 1 },
                  outcome := Outcome.softFailed, transferAttempted := true }
            else
              { state := { st with db := mark_as_failed task.id code st.db },
                outcome := Outcome.softFailed, transferAttempted := true }

/-- Sequential execution of `upload_image` over a list of tasks with their
environments, threading the shared uploader state and collecting outcomes. -/
def runUploads (threshold : Nat) : List (UploadTask × TaskEnv) → UploaderState →
    UploaderState × List Outcome
  | [], st => (st, [])
  | p :: rest, st =>
    let r := upload_image threshold p.1 p.2 st
    let q := runUploads threshold rest r.state
    (q.1, r.outcome :: q.2)

/-- State of `S3ClientWrapper`: the opaque client handle (`None` until one is
created; modelled by a `Nat` identifier) and the known credential expiry
instant (UTC, seconds). -/
structure S3ClientState where
  s3_client : Option Nat
  expiry_time : Option Int
  deriving Repr, DecidableEq

/-- The wrapper's `BUFFER_PERIOD_MINUTES = 10`. -/
def BUFFER_PERIOD_MINUTES : Int := 10

/-- Refresh condition of `_refresh_s3_client`: `force_refresh or not
self._expiry_time or (self._expiry_time and current_time >=
self._expiry_time - timedelta(minutes=BUFFER_PERIOD_MINUTES))`.
Times are in seconds, so the buffer is `BUFFER_PERIOD_MINUTES * 60`. -/
def shouldRefresh (force_refresh : Bool) (current_time : Int)
    (expiry_time : Option Int) : Bool :=
  force_refresh || expiry_time.isNone ||
    (match expiry_time with
     | none => false
     | some e => decide (current_time ≥ e - BUFFER_PERIOD_MINUTES * 60))

/-- Embedding of `_create_s3_client`: constructing the boto3 client either
raises (modelled by `creationFails`, propagated as `Except.error` with the
state untouched) or returns a new handle, in which case `_expiry_time` is set
to whatever `_read_aws_credentials_expiry` found in the external credential
store (possibly nothing). -/
def create_s3_client (credentialExpiry : Option Int) (newHandle : Nat)
    (creationFails : Bool) (st : S3ClientState) : Except String S3ClientState :=
  if creationFails then Except.error ("Failed to create S3 client")
  else Except.ok { s3_client := some newHandle, expiry_time := credentialExpiry }

/-- Embedding of `_refresh_s3_client` (the body `get_fresh_s3_client` runs):
when the refresh condition holds the handle is replaced by a fresh
`_create_s3_client` result (whose failure propagates uncaught); otherwise the
state is left as it is. -/
def refresh_s3_client (force_refresh : Bool) (current_time : Int)
    (credentialExpiry : Option Int) (newHandle : Nat) (creationFails : Bool)
    (st : S3ClientState) : Except String S3ClientState :=
  if shouldRefresh force_refresh current_time st.expiry_time then
    create_s3_client credentialExpiry newHandle creationFails st
  else Except.ok st

/-- One iteration's stimulus for the `run_multithreaded` loop: an exception
raised inside the loop body and caught by its generic handler, an empty fetch
(sleep and retry), or a fetched batch whose dispatched workers produced the
given outcomes. -/
inductive IterInput where
  | bodyError (msg : String)
  | emptyFetch
  | batch (results : List Outcome)
  deriving Repr, DecidableEq

/-- Observable state of the `run_multithreaded` loop: how many times
`fetch_pending_uploads` was reached and whether `close_all_connections` has
run. -/
structure LoopState where
  fetchCount : Nat
  poolReleased : Bool
  deriving Repr, DecidableEq

/-- Test `meltdown_detected`: some future raised `S3MeltdownError`. -/
def meltdownIn (results : List Outcome) : Bool :=
  results.contains Outcome.meltdown

/-- Embedding of the `run_multithreaded` control loop over a finite stream of
iteration stimuli. Each stimulus costs one fetch attempt. A body-level
exception is logged and the loop continues; an empty fetch sleeps and
continues; a batch containing a meltdown outcome breaks out of the loop,
after which `close_all_connections` runs. The returned flag says whether the
loop terminated; exhausting the stimuli with the loop still live returns
`false` with the pool still held. -/
def runLoop : List IterInput → LoopState → LoopState × Bool
  | [], st => (st, false)
  | i :: rest, st =>
    let st1 : LoopState := { st with fetchCount := st.fetchCount + 1 }
    match i with
    | IterInput.bodyError _ => runLoop rest st1
    | IterInput.emptyFetch => runLoop rest st1
    | IterInput.batch results =>
      if meltdownIn results then
        ({ st1 with poolReleased := true }, true)
      else runLoop rest st1

/-- Concrete task used to instantiate the theorems on a closed input. -/
def sampleTask : UploadTask :=
  { id := 1, image_id := 10, acq_id := 20, local_path := "/tmp/missing.tif" }

/-- Concrete pending-queue row matching `sampleTask`. -/
def sampleRow : QueueRow :=
  { id := 1, image_id := 10, acq_id := 20, path := "/tmp/missing.tif",
    status := "pending", retry_count := 0, last_error := none }

/-- Concrete database state with one pending row and an empty ledger. -/
def sampleDB : DBState := { upload_to_s3 := [sampleRow], uploaded_s3 := [] }

/-- Concrete uploader state with a nonzero meltdown counter. -/
def sampleState : UploaderState := { db := sampleDB, counter := 3 }

/-- Environment where the local file is absent. -/
def envFileMissing : TaskEnv :=
  { fileExists := false, clientOk := true, probe := ProbeResult.notFound,
    transfer := TransferResult.ok }

/-- Environment where the destination already holds the object. -/
def envFound : TaskEnv :=
  { fileExists := true, clientOk := true, probe := ProbeResult.found,
    transfer := TransferResult.ok }

/-- Environment where the probe finds nothing and the transfer succeeds. -/
def envSuccess : TaskEnv :=
  { fileExists := true, clientOk := true, probe := ProbeResult.notFound,
    transfer := TransferResult.ok }

/-- Environment where the probe fails with the transient error code 503. -/
def envTransient : TaskEnv :=
  { fileExists := true, clientOk := true, probe := ProbeResult.clientError ("503"),
    transfer := TransferResult.ok }

/-! Helper lemmas shared by the claim theorems. -/

theorem stripLeadingSlashes_idem (l : List Char) :
    stripLeadingSlashes (stripLeadingSlashes l) = stripLeadingSlashes l := by
  induction l with
  | nil => rfl
  | cons c cs ih =>
    by_cases h : c = '/'
    · simp [stripLeadingSlashes, h, ih]
    · simp [stripLeadingSlashes, h]

/-! Claim theorems. -/

/-- C6: Destination-key derivation is deterministic and idempotent:
stripping leading path separators twice equals stripping once,
`derive_key("/a/b/c.tif") == "a/b/c.tif"`, and the auditing tool's
`key_for_local_path` computes exactly the same function as the uploader's
derivation. -/
theorem key_derivation_idempotent_and_shared :
    (∀ s : String, deriveKey (deriveKey s) = deriveKey s)
    ∧ deriveKey ("/a/b/c.tif") = "a/b/c.tif"
    ∧ (∀ s : String, key_for_local_path s = deriveKey s) := by
  refine ⟨?_, ?_, ?_⟩
  · intro s
    simp [deriveKey, stripLeadingSlashes_idem]
  · rfl
  · intro s
    rfl

/-- C5: For every limit, `fetch_batch` returns at most `limit` tasks, and
every task it returns has `retry_count < 5`. -/
theorem fetch_batch_bounded_and_eligible (limit : Nat) (db : DBState) :
    (fetch_pending_uploads limit db).length ≤ limit
    ∧ ∀ row ∈ fetch_pending_uploads limit db, row.retry_count < 5 := by
  constructor
  · exact List.length_take_le limit _
  · intro row hrow
    have h1 : row ∈ db.upload_to_s3.filter (fun r => r.retry_count < 5) :=
      List.mem_of_mem_take hrow
    have h2 := List.of_mem_filter h1
    simpa using h2

/-- C8: `get_client` replaces the stored handle exactly when refresh is
forced, or no expiry is known, or the current time is at or past the known
expiry minus the 10-minute buffer; every successful handle creation updates
the stored expiry from the external credential store; and a failure to
construct a handle propagates to the caller (with the state untouched, no
retry). -/
theorem refresh_policy_correct (force : Bool) (now : Int) (credExp : Option Int)
    (handle : Nat) (fails : Bool) (st : S3ClientState) :
    (shouldRefresh force now st.expiry_time = true ↔
        force = true ∨ st.expiry_time = none ∨
          ∃ e, st.expiry_time = some e ∧ now ≥ e - BUFFER_PERIOD_MINUTES * 60)
    ∧ (shouldRefresh force now st.expiry_time = false →
        refresh_s3_client force now credExp handle fails st = Except.ok st)
    ∧ (shouldRefresh force now st.expiry_time = true → fails = false →
        refresh_s3_client force now credExp handle fails st =
          Except.ok { s3_client := some handle, expiry_time := credExp })
    ∧ (shouldRefresh force now st.expiry_time = true → fails = true →
        refresh_s3_client force now credExp handle fails st =
          Except.error ("Failed to create S3 client")) := by
  refine ⟨?_, ?_, ?_, ?_⟩
  · cases hexp : st.expiry_time with
    | none => simp [shouldRefresh]
    | some e => simp [shouldRefresh, hexp]
  · intro h
    simp [refresh_s3_client, h]
  · intro h hf
    simp [refresh_s3_client, create_s3_client, h, hf]
  · intro h hf
    simp [refresh_s3_client, create_s3_client, h, hf]

/-- C1: For every task whose local file exists and whose destination probe
returns not-found, if the transfer succeeds then exactly one ledger row
`{image_id, acq_id, local_path, key, bucket}` is appended via
`record_success`, the task row is deleted, and the meltdown counter is zero
afterward regardless of its prior value. -/
theorem success_appends_ledger_deletes_task_resets_counter
    (threshold : Nat) (task : UploadTask) (env : TaskEnv) (st : UploaderState)
    (hf : env.fileExists = true) (hc : env.clientOk = true)
    (hp : env.probe = ProbeResult.notFound) (ht : env.transfer = TransferResult.ok) :
    (upload_image threshold task env st).state.db.uploaded_s3 =
        st.db.uploaded_s3 ++
          [{ image_id := task.image_id, acq_id := task.acq_id, path := task.local_path,
             object_key := deriveKey task.local_path, bucket := BUCKET_NAME }]
    ∧ (upload_image threshold task env st).state.db.upload_to_s3 =
        st.db.upload_to_s3.filter (fun row => row.id != task.id)
    ∧ (upload_image threshold task env st).state.counter = 0
    ∧ (upload_image threshold task env st).outcome = Outcome.succeeded := by
  simp [upload_image, hf, hc, hp, ht, delete_uploaded_record, insert_into_uploaded_s3]

/-- C3: For every task whose destination already holds an object at the
derived key, the worker deletes the task row, writes no ledger entry,
attempts no transfer, and returns the skipped-existing outcome. -/
theorem existing_object_deletes_task_no_ledger_no_transfer
    (threshold : Nat) (task : UploadTask) (env : TaskEnv) (st : UploaderState)
    (hf : env.fileExists = true) (hc : env.clientOk = true)
    (hp : env.probe = ProbeResult.found) :
    (upload_image threshold task env st).state.db.upload_to_s3 =
        st.db.upload_to_s3.filter (fun row => row.id != task.id)
    ∧ (upload_image threshold task env st).state.db.uploaded_s3 = st.db.uploaded_s3
    ∧ (upload_image threshold task env st).transferAttempted = false
    ∧ (upload_image threshold task env st).outcome = Outcome.skippedExisting := by
  simp [upload_image, hf, hc, hp, delete_uploaded_record]

/-- C4: For every task whose local file does not exist on disk, the worker
calls `mark_failed` with a descriptive message and returns soft-failed: the
task's status becomes failed, the error text is stored, `retry_count` is
incremented by exactly 1, the task row is not deleted, and the meltdown
counter is unchanged. -/
theorem missing_file_marks_failed_keeps_row_and_counter
    (threshold : Nat) (task : UploadTask) (env : TaskEnv) (st : UploaderState)
    (hf : env.fileExists = false) :
    (upload_image threshold task env st).outcome = Outcome.softFailed
    ∧ (upload_image threshold task env st).state.counter = st.counter
    ∧ (upload_image threshold task env st).state.db.uploaded_s3 = st.db.uploaded_s3
    ∧ (upload_image threshold task env st).state.db.upload_to_s3.length =
        st.db.upload_to_s3.length
    ∧ (∀ row ∈ st.db.upload_to_s3, row.id = task.id →
        ({ row with status := "failed",
                    last_error := some (fileMissingMsg task.local_path),
                    retry_count := row.retry_count + 1 } : QueueRow)
          ∈ (upload_image threshold task env st).state.db.upload_to_s3)
    ∧ (∀ row ∈ st.db.upload_to_s3, row.id ≠ task.id →
        row ∈ (upload_image threshold task env st).state.db.upload_to_s3) := by
  refine ⟨?_, ?_, ?_, ?_, ?_, ?_⟩
  · simp [upload_image, hf]
  · simp [upload_image, hf]
  · simp [upload_image, hf, mark_as_failed]
  · simp [upload_image, hf, mark_as_failed]
  · intro row hrow hid
    simp only [upload_image, hf, if_true, mark_as_failed]
    have := List.mem_map_of_mem (fun r : QueueRow =>
      if r.id = task.id then
        { r with status := "failed", last_error := some (fileMissingMsg task.local_path),
                 retry_count := r.retry_count + 1 }
      else r) hrow
    simpa [hid] using this
  · intro row hrow hid
    simp only [upload_image, hf, if_true, mark_as_failed]
    have := List.mem_map_of_mem (fun r : QueueRow =>
      if r.id = task.id then
        { r with status := "failed", last_error := some (fileMissingMsg task.local_path),
                 retry_count := r.retry_count + 1 }
      else r) hrow
    simpa [hid] using this

/-- C9: When a worker raises the meltdown signal for a task, that task's
queue row is left entirely untouched: neither `mark_failed` nor
`delete_task` runs for it, so the whole database state is unchanged and the
task remains eligible for a future batch. -/
theorem meltdown_signal_leaves_database_untouched
    (threshold : Nat) (task : UploadTask) (env : TaskEnv) (st : UploaderState)
    (h : (upload_image threshold task env st).outcome = Outcome.meltdown) :
    (upload_image threshold task env st).state.db = st.db := by
  obtain ⟨fe, co, probe, transfer⟩ := env
  cases fe with
  | false => simp [upload_image] at h
  | true =>
    cases co with
    | false => simp [upload_image] at h
    | true =>
      cases probe with
      | found => simp [upload_image] at h
      | clientError code =>
        by_cases hm : isMeltdownCode code = true
        · by_cases hth : st.counter + 1 ≥ threshold
          · simp [upload_image, hm, hth]
          · simp [upload_image, hm, hth] at h
        · simp [upload_image, hm] at h
      | notFound =>
        cases transfer with
        | ok => simp [upload_image] at h
        | clientError code =>
          by_cases hm : isMeltdownCode code = true
          · by_cases hth : st.counter + 1 ≥ threshold
            · simp [upload_image, hm, hth]
            · simp [upload_image, hm, hth] at h
          · simp [upload_image, hm] at h

/-- C10: The skipped-existing outcome leaves the meltdown counter unchanged,
and only the completed-transfer success path resets the counter to zero, so
transient-error runs interleaved with skipped-existing outcomes are not
reset by them. -/
theorem skip_keeps_counter_only_success_resets
    (threshold : Nat) (task : UploadTask) (env : TaskEnv) (st : UploaderState) :
    ((upload_image threshold task env st).outcome = Outcome.skippedExisting →
        (upload_image threshold task env st).state.counter = st.counter)
    ∧ ((upload_image threshold task env st).state.counter = 0 →
        st.counter = 0 ∨ (upload_image threshold task env st).outcome = Outcome.succeeded) := by
  obtain ⟨fe, co, probe, transfer⟩ := env
  cases fe with
  | false => simp [upload_image]
  | true =>
    cases co with
    | false => simp [upload_image]
    | true =>
      cases probe with
      | found => simp [upload_image]
      | clientError code =>
        by_cases hm : isMeltdownCode code = true
        · by_cases hth : st.counter + 1 ≥ threshold
          · simp [upload_image, hm, hth]
          · simp [upload_image, hm, hth]
        · simp [upload_image, hm]
      | notFound =>
        cases transfer with
        | ok => simp [upload_image]
        | clientError code =>
          by_cases hm : isMeltdownCode code = true
          · by_cases hth : st.counter + 1 ≥ threshold
            · simp [upload_image, hm, hth]
            · simp [upload_image, hm, hth]
          · simp [upload_image, hm]

theorem upload_image_transient_step (threshold : Nat) (task : UploadTask)
    (st : UploaderState) (h : st.counter + 1 < threshold) :
    upload_image threshold task envTransient st =
      { state := { db := mark_as_failed task.id ("503") st.db, counter := st.counter + 1 },
        outcome := Outcome.softFailed, transferAttempted := false } := by
  have hth : ¬ st.counter + 1 ≥ threshold := by omega
  have hm : isMeltdownCode ("503") = true := by decide
  simp [upload_image, envTransient, hm, hth]

theorem upload_image_meltdown_step (threshold : Nat) (task : UploadTask)
    (st : UploaderState) (h : st.counter + 1 ≥ threshold) :
    upload_image threshold task envTransient st =
      { state := { st with counter := st.counter + 1 },
        outcome := Outcome.meltdown, transferAttempted := false } := by
  have hm : isMeltdownCode ("503") = true := by decide
  simp [upload_image, envTransient, hm, h]

theorem upload_image_success_step (threshold : Nat) (task : UploadTask)
    (st : UploaderState) :
    upload_image threshold task envSuccess st =
      { state :=
          { db := delete_uploaded_record task.id
              (insert_into_uploaded_s3 task.image_id task.acq_id task.local_path
                (deriveKey task.local_path) BUCKET_NAME st.db),
            counter := 0 },
        outcome := Outcome.succeeded, transferAttempted := true } := by
  simp [upload_image, envSuccess]

theorem runUploads_transient_below_threshold (threshold : Nat) (task : UploadTask)
    (j : Nat) :
    ∀ (c : Nat) (db : DBState), c + j < threshold →
      ∃ db2, runUploads threshold (List.replicate j (task, envTransient))
          { db := db, counter := c } =
        ({ db := db2, counter := c + j }, List.replicate j Outcome.softFailed) := by
  induction j with
  | zero =>
    intro c db _
    exact ⟨db, by simp [runUploads]⟩
  | succ n ih =>
    intro c db h
    have hstep := upload_image_transient_step threshold task { db := db, counter := c }
      (by simp; omega)
    obtain ⟨db2, hrest⟩ := ih (c + 1) (mark_as_failed task.id ("503") db) (by omega)
    refine ⟨db2, ?_⟩
    have hc : c + 1 + n = c + (n + 1) := by omega
    simp only [List.replicate_succ, runUploads, hstep]
    simp only [mark_as_failed] at hrest ⊢
    rw [hrest] at *
    simp [hc]

theorem runUploads_transient_trips_at_threshold (threshold : Nat) (task : UploadTask)
    (j : Nat) :
    ∀ (c : Nat) (db : DBState), c + j = threshold → 1 ≤ j →
      ∃ st2, runUploads threshold (List.replicate j (task, envTransient))
          { db := db, counter := c } =
        (st2, List.replicate (j - 1) Outcome.softFailed ++ [Outcome.meltdown])
        ∧ st2.counter = threshold := by
  induction j with
  | zero =>
    intro c db _ hpos
    omega
  | succ n ih =>
    intro c db hsum _
    by_cases hn : n = 0
    · subst hn
      have hstep := upload_image_meltdown_step threshold task { db := db, counter := c }
        (by simp; omega)
      refine ⟨{ db := db, counter := c + 1 }, ?_, by simp; omega⟩
      simp [List.replicate_succ, runUploads, hstep]
    · have hlt : c + 1 < threshold := by omega
      have hstep := upload_image_transient_step threshold task { db := db, counter := c }
        (by simp; omega)
      obtain ⟨st2, hrest, hcnt⟩ := ih (c + 1) (mark_as_failed task.id ("503") db) (by omega)
        (by omega)
      refine ⟨st2, ?_, hcnt⟩
      have hrep : List.replicate n Outcome.softFailed =
          Outcome.softFailed :: List.replicate (n - 1) Outcome.softFailed := by
        have hn2 : n = (n - 1) + 1 := by omega
        conv_lhs => rw [hn2]
        rw [List.replicate_succ]
      simp only [List.replicate_succ, runUploads, hstep]
      simp only [mark_as_failed] at hrest ⊢
      rw [hrest]
      simp [hrep]

theorem runUploads_append (threshold : Nat) (l1 l2 : List (UploadTask × TaskEnv))
    (st : UploaderState) :
    runUploads threshold (l1 ++ l2) st =
      ((runUploads threshold l2 (runUploads threshold l1 st).1).1,
        (runUploads threshold l1 st).2 ++
          (runUploads threshold l2 (runUploads threshold l1 st).1).2) := by
  induction l1 generalizing st with
  | nil => simp [runUploads]
  | cons p rest ih => simp [runUploads, ih]

/-- C2: Starting from a counter of zero, N consecutive transient-error
outcomes with N equal to the configured threshold produce exactly one
meltdown signal, on the Nth; a success occurring at any point before N
resets the consecutive count to zero, so a fresh run of N transient errors
is required afterward to trip again. -/
theorem breaker_trips_once_on_nth_and_success_resets
    (N k : Nat) (task : UploadTask) (db : DBState) (hN : 0 < N) (hk : k < N) :
    (runUploads N (List.replicate N (task, envTransient))
        { db := db, counter := 0 }).2 =
      List.replicate (N - 1) Outcome.softFailed ++ [Outcome.meltdown]
    ∧ (runUploads N (List.replicate k (task, envTransient) ++ (task, envSuccess) ::
          List.replicate N (task, envTransient)) { db := db, counter := 0 }).2 =
      List.replicate k Outcome.softFailed ++ Outcome.succeeded ::
        (List.replicate (N - 1) Outcome.softFailed ++ [Outcome.meltdown]) := by
  constructor
  · obtain ⟨st2, heq, _⟩ := runUploads_transient_trips_at_threshold N task N 0 db
      (by omega) (by omega)
    rw [heq]
  · obtain ⟨db2, h1⟩ := runUploads_transient_below_threshold N task k 0 db (by omega)
    have h2 := upload_image_success_step N task { db := db2, counter := 0 + k }
    obtain ⟨st3, h3, _⟩ := runUploads_transient_trips_at_threshold N task N 0
      (delete_uploaded_record task.id
        (insert_into_uploaded_s3 task.image_id task.acq_id task.local_path
          (deriveKey task.local_path) BUCKET_NAME db2)) (by omega) (by omega)
    rw [runUploads_append, h1]
    simp only [runUploads, h2, h3]

theorem meltdownIn_iff (results : List Outcome) :
    meltdownIn results = true ↔ Outcome.meltdown ∈ results := by
  simp [meltdownIn, List.contains, List.elem_iff]

theorem runLoop_terminates_iff (inputs : List IterInput) (st : LoopState) :
    (runLoop inputs st).2 = true ↔
      ∃ rs, IterInput.batch rs ∈ inputs ∧ Outcome.meltdown ∈ rs := by
  induction inputs generalizing st with
  | nil => simp [runLoop]
  | cons i rest ih =>
    cases i with
    | bodyError m => simp [runLoop, ih]
    | emptyFetch => simp [runLoop, ih]
    | batch results =>
      by_cases h : meltdownIn results = true
      · have hm := (meltdownIn_iff results).mp h
        have hterm : (runLoop (IterInput.batch results :: rest) st).2 = true := by
          simp [runLoop, h]
        exact iff_of_true hterm ⟨results, List.mem_cons_self _ _, hm⟩
      · have hm : Outcome.meltdown ∉ results := by
          intro hmem
          exact h ((meltdownIn_iff results).mpr hmem)
        have hstep : runLoop (IterInput.batch results :: rest) st =
            runLoop rest { st with fetchCount := st.fetchCount + 1 } := by
          simp [runLoop, h]
        rw [hstep, ih]
        constructor
        · rintro ⟨rs, hrs, hmel⟩
          exact ⟨rs, List.mem_cons_of_mem _ hrs, hmel⟩
        · rintro ⟨rs, hrs, hmel⟩
          rcases List.mem_cons.mp hrs with heq | hmem
          · injection heq with he
            subst he
            exact absurd hmel hm
          · exact ⟨rs, hmem, hmel⟩

theorem runLoop_released_on_termination (inputs : List IterInput) (st : LoopState) :
    (runLoop inputs st).2 = true → (runLoop inputs st).1.poolReleased = true := by
  induction inputs generalizing st with
  | nil => simp [runLoop]
  | cons i rest ih =>
    cases i with
    | bodyError m => simpa [runLoop] using ih _
    | emptyFetch => simpa [runLoop] using ih _
    | batch results =>
      by_cases h : meltdownIn results = true
      · simp [runLoop, h]
      · simpa [runLoop, h] using ih _

theorem runLoop_termination_permanent (inputs extra : List IterInput) (st : LoopState)
    (h : (runLoop inputs st).2 = true) :
    runLoop (inputs ++ extra) st = runLoop inputs st := by
  induction inputs generalizing st with
  | nil => simp [runLoop] at h
  | cons i rest ih =>
    cases i with
    | bodyError m =>
      simp only [runLoop] at h ⊢
      exact ih _ h
    | emptyFetch =>
      simp only [runLoop] at h ⊢
      exact ih _ h
    | batch results =>
      by_cases hm : meltdownIn results = true
      · simp [runLoop, hm]
      · simp only [runLoop, hm, if_false] at h ⊢
        exact ih _ h

/-- C7: In the scheduler loop, a meltdown signal from a worker batch is the
only condition that terminates the loop; termination is permanent (appending
further iteration stimuli changes nothing, so no further fetch happens);
every other error during fetching or dispatching lets the loop proceed; and
on loop termination the connection pool is released. -/
theorem scheduler_terminates_only_on_meltdown_and_releases_pool
    (inputs : List IterInput) (st : LoopState) :
    ((runLoop inputs st).2 = true ↔
        ∃ rs, IterInput.batch rs ∈ inputs ∧ Outcome.meltdown ∈ rs)
    ∧ ((runLoop inputs st).2 = true → (runLoop inputs st).1.poolReleased = true)
    ∧ (∀ extra, (runLoop inputs st).2 = true →
        runLoop (inputs ++ extra) st = runLoop inputs st) := by
  exact ⟨runLoop_terminates_iff inputs st,
    runLoop_released_on_termination inputs st,
    fun extra h => runLoop_termination_permanent inputs extra st h⟩

/-- Witness for C1 at a concrete task, environment and state. -/
theorem success_appends_ledger_deletes_task_resets_counter_witness :
    (upload_image 5 sampleTask envSuccess sampleState).state.counter = 0
    ∧ (upload_image 5 sampleTask envSuccess sampleState).outcome = Outcome.succeeded := by
  have h := success_appends_ledger_deletes_task_resets_counter 5 sampleTask envSuccess
    sampleState rfl rfl rfl rfl
  exact ⟨h.2.2.1, h.2.2.2⟩

/-- Witness for C2 with threshold 2 and one pre-success transient error. -/
theorem breaker_trips_once_on_nth_and_success_resets_witness :
    (runUploads 2 (List.replicate 2 (sampleTask, envTransient))
        { db := sampleDB, counter := 0 }).2 =
      List.replicate 1 Outcome.softFailed ++ [Outcome.meltdown] := by
  exact (breaker_trips_once_on_nth_and_success_resets 2 1 sampleTask sampleDB
    (by decide) (by decide)).1

/-- Witness for C3 at a concrete task, environment and state. -/
theorem existing_object_deletes_task_no_ledger_no_transfer_witness :
    (upload_image 5 sampleTask envFound sampleState).outcome = Outcome.skippedExisting
    ∧ (upload_image 5 sampleTask envFound sampleState).transferAttempted = false := by
  have h := existing_object_deletes_task_no_ledger_no_transfer 5 sampleTask envFound
    sampleState rfl rfl rfl
  exact ⟨h.2.2.2, h.2.2.1⟩

/-- Witness for C4 at a concrete task, environment and state. -/
theorem missing_file_marks_failed_keeps_row_and_counter_witness :
    (upload_image 5 sampleTask envFileMissing sampleState).outcome = Outcome.softFailed
    ∧ (upload_image 5 sampleTask envFileMissing sampleState).state.counter =
        sampleState.counter := by
  have h := missing_file_marks_failed_keeps_row_and_counter 5 sampleTask envFileMissing
    sampleState rfl
  exact ⟨h.1, h.2.1⟩

/-- Witness for C5 at a concrete limit and database state. -/
theorem fetch_batch_bounded_and_eligible_witness :
    (fetch_pending_uploads 1 sampleDB).length ≤ 1 := by
  exact (fetch_batch_bounded_and_eligible 1 sampleDB).1

/-- Witness for C6 at a concrete local path. -/
theorem key_derivation_idempotent_and_shared_witness :
    deriveKey (deriveKey ("//share/mikro2/x.tif")) = deriveKey ("//share/mikro2/x.tif") := by
  exact key_derivation_idempotent_and_shared.1 ("//share/mikro2/x.tif")

/-- Witness for C7 on a one-iteration stream whose batch melts down. -/
theorem scheduler_terminates_only_on_meltdown_and_releases_pool_witness :
    (runLoop [IterInput.batch [Outcome.meltdown]]
        { fetchCount := 0, poolReleased := false }).1.poolReleased = true := by
  exact (scheduler_terminates_only_on_meltdown_and_releases_pool
    [IterInput.batch [Outcome.meltdown]]
    { fetchCount := 0, poolReleased := false }).2.1 (by decide)

/-- Witness for C8 on a forced refresh with a succeeding creation. -/
theorem refresh_policy_correct_witness :
    refresh_s3_client true 0 (some 1000) 7 false
        { s3_client := none, expiry_time := none } =
      Except.ok { s3_client := some 7, expiry_time := some 1000 } := by
  exact (refresh_policy_correct true 0 (some 1000) 7 false
    { s3_client := none, expiry_time := none }).2.2.1 (by decide) rfl

/-- Witness for C9 with counter 3 and threshold 4, so the transient probe
error raises the meltdown signal. -/
theorem meltdown_signal_leaves_database_untouched_witness :
    (upload_image 4 sampleTask envTransient sampleState).state.db = sampleState.db := by
  exact meltdown_signal_leaves_database_untouched 4 sampleTask envTransient sampleState
    (by decide)

/-- Witness for C10 on the skipped-existing path with a nonzero counter. -/
theorem skip_keeps_counter_only_success_resets_witness :
    (upload_image 5 sampleTask envFound sampleState).state.counter =
      sampleState.counter := by
  exact (skip_keeps_counter_only_success_resets 5 sampleTask envFound sampleState).1
    (by decide)

end S3Uploader
